import Mathlib

/-!
Verification of the school-records manager (Entity Model, Relationship
Rebuilder, Persistence Gateway) against its specification.

The entity layer is embedded from `src/core/modules.py`; the storage layer
from `src/storage/data_manager.py`.  Python strings used by the validators
are embedded as `List Char` (so that `str.strip`, `str.startswith` and
`str.endswith` are executable); identifiers stored in database rows are
embedded as `String`.  Python `ValueError`s and the uncaught
`sqlite3.IntegrityError` are embedded as the inductive `PyErr`, whose
constructors name the error kinds of the specification realised by the
corresponding `raise` sites.  The comma-joined denormalized ID columns are
embedded as lists of IDs (the comma encoding itself is presentation).
Object identity (Python `in` / `!=` on entities, which fall back to
identity) is embedded by representing entity references as numeric object
ids.
-/

namespace School

/-- ASCII whitespace test used by Python `str.strip()`. -/
def py_space (c : Char) : Bool :=
  c == ' ' || c == '\t' || c == '\n' || c == '\r' || c == '\x0b' || c == '\x0c'

/-- Python `value.strip()` on a string given as a character list. -/
def py_strip (s : List Char) : List Char :=
  ((s.dropWhile py_space).reverse.dropWhile py_space).reverse

/-- Python `value.startswith(p)` for a single-character p. -/
def starts_with_char (s : List Char) (c : Char) : Bool :=
  match s with
  | [] => false
  | a :: _ => a == c

/-- Python `value.endswith(suff)`. -/
def ends_with (s suff : List Char) : Bool :=
  suff.isSuffixOf s

/-- Error kinds raised by the embedded code.  `validation msg` is a
`ValueError` raised by a field setter (carrying its message),
`duplicateRelation` the `ValueError` of the relationship mutators,
`conflict` the `ValueError` of the `course_instructor` setter,
`duplicateKey` / `notFound` the key errors of the storage layer, and
`integrityError` an uncaught `sqlite3.IntegrityError` (e.g. a FOREIGN KEY
violation with `PRAGMA foreign_keys = ON`). -/
inductive PyErr where
  | validation : String → PyErr
  | duplicateRelation : PyErr
  | conflict : PyErr
  | duplicateKey : PyErr
  | notFound : PyErr
  | integrityError : PyErr
deriving DecidableEq

/-- `Except.isOk` specialised to our error type. -/
def is_ok {ε α : Type} (e : Except ε α) : Bool :=
  match e with
  | Except.ok _ => true
  | Except.error _ => false

/-- The fixed organizational domain suffix checked by the email setter
(`value.endswith("starschool.com")` in `Person.email`). -/
def email_suffix : List Char := "starschool.com".toList

/-- A validated `Person` (base of Student and Instructor). -/
structure Person where
  name : List Char
  email : List Char
  age : Int
deriving DecidableEq

/-- `Person.__init__` from `src/core/modules.py`: runs the `name`, `email`
and `age` setters in order; the first failing validation raises.  Inputs are
of the expected Python types (str, str, int), so the `isinstance` branches
are statically passed. -/
def person_new (name email : List Char) (age : Int) : Except PyErr Person :=
  if (py_strip name).isEmpty then
    Except.error (PyErr.validation "Name must not be empty.")
  else if (py_strip email).isEmpty then
    Except.error (PyErr.validation "Email must not be empty.")
  else if ¬ ends_with email email_suffix then
    Except.error (PyErr.validation "Email must end with @starschool.com.")
  else if age < 0 then
    Except.error (PyErr.validation "Age must be non-negative.")
  else
    Except.ok ⟨name, email, age⟩

/-- The `Student.student_id` setter from `src/core/modules.py` (str input):
returns the raised error, or `none` on success. -/
def student_id_check (v : List Char) : Option PyErr :=
  if (py_strip v).isEmpty then
    some (PyErr.validation "Student ID must not be empty.")
  else if ¬ starts_with_char v 'S' then
    some (PyErr.validation "Your ID must start with S.")
  else
    none

/-- The `Instructor.instructor_id` setter from `src/core/modules.py`. -/
def instructor_id_check (v : List Char) : Option PyErr :=
  if (py_strip v).isEmpty then
    some (PyErr.validation "Instructor ID must not be empty.")
  else if ¬ starts_with_char v 'I' then
    some (PyErr.validation "Your ID must start with I.")
  else
    none

/-- The `Course.course_id` setter from `src/core/modules.py`. -/
def course_id_check (v : List Char) : Option PyErr :=
  if (py_strip v).isEmpty then
    some (PyErr.validation "Course IDs must not be empty.")
  else if ¬ starts_with_char v 'C' then
    some (PyErr.validation "Course IDs must start with C.")
  else
    none

/-- `Student.register_course` from `src/core/modules.py`: the argument is a
`Course` object (identity given by a numeric object id); a duplicate (by
identity, Python `in`) raises and leaves the list untouched, otherwise the
course is appended.  Returns the resulting list and the raised error. -/
def register_course (registered : List Nat) (course : Nat) : List Nat × Option PyErr :=
  if course ∈ registered then
    (registered, some PyErr.duplicateRelation)
  else
    (registered ++ [course], none)

/-- `Instructor.assign_course` from `src/core/modules.py`. -/
def assign_course (assigned : List Nat) (course : Nat) : List Nat × Option PyErr :=
  if course ∈ assigned then
    (assigned, some PyErr.duplicateRelation)
  else
    (assigned ++ [course], none)

/-- `Course.register_student` from `src/core/modules.py`. -/
def register_student (enrolled : List Nat) (student : Nat) : List Nat × Option PyErr :=
  if student ∈ enrolled then
    (enrolled, some PyErr.duplicateRelation)
  else
    (enrolled ++ [student], none)

/-- The `Course.course_instructor` setter from `src/core/modules.py`, on a
constructed course (the attribute exists): raises iff an instructor is
currently stored, the new value is an instructor, and the two differ by
identity (`!=` on objects); on failure the slot keeps its old value.
Returns the resulting slot and the raised error. -/
def set_course_instructor (current value : Option Nat) : Option Nat × Option PyErr :=
  match current, value with
  | some cur, some v => if cur == v then (some v, none) else (some cur, some PyErr.conflict)
  | _, _ => (value, none)

/-- A row of the `students` table (`registered_courses` is the denormalized
comma-joined course-ID column, embedded as an ID list). -/
structure StudentRow where
  student_id : String
  name : String
  age : Int
  email : String
  registered_courses : List String
deriving DecidableEq

/-- A row of the `instructors` table. -/
structure InstructorRow where
  instructor_id : String
  name : String
  age : Int
  email : String
  assigned_courses : List String
deriving DecidableEq

/-- A row of the `courses` table (`course_instructor` is a nullable column
referencing `instructors(instructor_id)`). -/
structure CourseRow where
  course_id : String
  course_name : String
  course_instructor : Option String
  enrolled_students : List String
deriving DecidableEq

/-- The persisted state: the four tables created by `DataManager.__init__`. -/
structure DBState where
  students : List StudentRow
  instructors : List InstructorRow
  courses : List CourseRow
  students_courses : List (String × String)
deriving DecidableEq

/-- The projection of an in-memory `Student` object that
`update_student_in_db` reads (its `registered_courses` contributes the list
of course ids written to the denormalized column). -/
structure StudentObj where
  student_id : String
  name : String
  age : Int
  email : String
  registered_course_ids : List String
deriving DecidableEq

/-- The projection of an in-memory `Instructor` object read by
`update_instructor_in_db`. -/
structure InstructorObj where
  instructor_id : String
  name : String
  age : Int
  email : String
  assigned_course_ids : List String
deriving DecidableEq

/-- `DataManager.update_student_in_db` from `src/storage/data_manager.py`:
a single SQL `UPDATE ... WHERE student_id=?` overwriting name, age, email
and the denormalized column on every matching row; it commits and returns
with no error path of its own (an absent key simply matches zero rows). -/
def update_student_in_db (db : DBState) (s : StudentObj) : Except PyErr DBState :=
  Except.ok { db with
    students := db.students.map (fun r =>
      if r.student_id = s.student_id then
        { r with name := s.name, age := s.age, email := s.email,
                 registered_courses := s.registered_course_ids }
      else r) }

/-- `DataManager.update_instructor_in_db` from `src/storage/data_manager.py`. -/
def update_instructor_in_db (db : DBState) (ins : InstructorObj) : Except PyErr DBState :=
  Except.ok { db with
    instructors := db.instructors.map (fun r =>
      if r.instructor_id = ins.instructor_id then
        { r with name := ins.name, age := ins.age, email := ins.email,
                 assigned_courses := ins.assigned_course_ids }
      else r) }

/-- `DataManager.delete_instructor_from_db` from
`src/storage/data_manager.py`: executes only
`DELETE FROM instructors WHERE instructor_id=?`.  Since `__init__` runs
`PRAGMA foreign_keys = ON` and `courses.course_instructor` references
`instructors(instructor_id)` with the default NO ACTION, the delete raises
an uncaught `sqlite3.IntegrityError` whenever the deleted row is still
referenced by a course; no unassignment is performed. -/
def delete_instructor_from_db (db : DBState) (iid : String) : Except PyErr DBState :=
  if (∃ r ∈ db.instructors, r.instructor_id = iid) ∧
     (∃ c ∈ db.courses, c.course_instructor = some iid) then
    Except.error PyErr.integrityError
  else
    Except.ok { db with instructors := db.instructors.filter (fun r => r.instructor_id != iid) }

/-- In-memory student as the Relationship Rebuilder sees it: its id and its
`registered_courses` collection (course ids, following the arena design note of the spec). -/
structure MStudent where
  sid : String
  registered : List String
deriving DecidableEq

/-- In-memory instructor with its `assigned_courses` collection. -/
structure MInstructor where
  iid : String
  assigned : List String
deriving DecidableEq

/-- In-memory course with its `course_instructor` slot and
`enrolled_students` collection. -/
structure MCourse where
  cid : String
  instructor : Option String
  enrolled : List String
deriving DecidableEq

/-- The three in-memory entity lists handed to the Relationship Rebuilder. -/
structure Snapshot where
  students : List MStudent
  instructors : List MInstructor
  courses : List MCourse
deriving DecidableEq

/-- Modelled from the spec: step 2 of §4.2 (the body of
`rebuild_relationships_clean` is not under `src/`, only its callers) —
clear every relationship collection that might already be non-empty. -/
def clear_links (st : Snapshot) : Snapshot :=
  { students := st.students.map (fun s => { s with registered := [] }),
    instructors := st.instructors.map (fun i => { i with assigned := [] }),
    courses := st.courses.map (fun c => { c with instructor := none, enrolled := [] }) }

/-- Modelled from the spec: steps 3–4 of §4.2 — resolve one persisted
course→instructor assignment `(course_id, instructor_id)`; skip silently if
either end is missing, never half-link; set the instructor slot of the course and
append the course to the assigned collection of the instructor only if not already
present. -/
def link_assignment (st : Snapshot) (row : String × String) : Snapshot :=
  if (∃ c ∈ st.courses, c.cid = row.1) ∧ (∃ i ∈ st.instructors, i.iid = row.2) then
    { st with
      courses := st.courses.map (fun c =>
        if c.cid = row.1 then { c with instructor := some row.2 } else c),
      instructors := st.instructors.map (fun i =>
        if i.iid = row.2 then
          (if row.1 ∈ i.assigned then i else { i with assigned := i.assigned ++ [row.1] })
        else i) }
  else st

/-- Modelled from the spec: step 5 of §4.2 — resolve one persisted
enrollment row `(student_id, course_id)` with the same skip-if-missing
policy, linking both sides with presence checks before appending. -/
def link_enrollment (st : Snapshot) (row : String × String) : Snapshot :=
  if (∃ s ∈ st.students, s.sid = row.1) ∧ (∃ c ∈ st.courses, c.cid = row.2) then
    { st with
      students := st.students.map (fun s =>
        if s.sid = row.1 then
          (if row.2 ∈ s.registered then s else { s with registered := s.registered ++ [row.2] })
        else s),
      courses := st.courses.map (fun c =>
        if c.cid = row.2 then
          (if row.1 ∈ c.enrolled then c else { c with enrolled := c.enrolled ++ [row.1] })
        else c) }
  else st

/-- Modelled from the spec: `rebuild_relationships_clean` (§4.2; the method
itself is not under `src/`) — clear all relationship collections, then link
every persisted assignment record and every persisted enrollment row. -/
def rebuild_relationships_clean (st : Snapshot)
    (assignments enrollments : List (String × String)) : Snapshot :=
  enrollments.foldl link_enrollment (assignments.foldl link_assignment (clear_links st))

/-- State acted on by `register_student_in_course`: the in-memory snapshot
plus the persisted `students_courses` join rows. -/
structure RegState where
  snapshot : Snapshot
  join : List (String × String)
deriving DecidableEq

/-- Modelled from the spec: `register_student_in_course(student_id,
course_id)` (§4.3; not under `src/`, only its callers) — fails with
`NotFoundError` if either ID is absent, fails with `DuplicateRelationError`
if already registered, otherwise inserts the join row and updates both
in-memory collections.  Returns the resulting state and the raised error. -/
def register_student_in_course (st : RegState) (sid cid : String) : RegState × Option PyErr :=
  if (∀ s ∈ st.snapshot.students, s.sid ≠ sid) ∨ (∀ c ∈ st.snapshot.courses, c.cid ≠ cid) then
    (st, some PyErr.notFound)
  else if (sid, cid) ∈ st.join then
    (st, some PyErr.duplicateRelation)
  else
    ({ snapshot := { st.snapshot with
         students := st.snapshot.students.map (fun s =>
           if s.sid = sid then { s with registered := s.registered ++ [cid] } else s),
         courses := st.snapshot.courses.map (fun c =>
           if c.cid = cid then { c with enrolled := c.enrolled ++ [sid] } else c) },
       join := st.join ++ [(sid, cid)] }, none)

/-- Modelled from the spec: `rename_course_id_in_db(old_id, new_id,
new_name)` (§4.3; not under `src/`, only its callers) — fails with
`DuplicateKeyError` if `new_id` already exists as a course primary key;
otherwise rewrites the row of the course itself and every referencing
occurrence (join rows, instructor assignment records, student registered
lists —
the denormalized ID-list columns) from `old_id` to `new_id`. -/
def rename_course_id_in_db (db : DBState) (old_id new_id new_name : String) :
    Except PyErr DBState :=
  if ∃ c ∈ db.courses, c.course_id = new_id then
    Except.error PyErr.duplicateKey
  else
    Except.ok
      { students := db.students.map (fun r =>
          { r with registered_courses :=
              r.registered_courses.map (fun c => if c = old_id then new_id else c) }),
        instructors := db.instructors.map (fun r =>
          { r with assigned_courses :=
              r.assigned_courses.map (fun c => if c = old_id then new_id else c) }),
        courses := db.courses.map (fun c =>
          if c.course_id = old_id then
            { c with course_id := new_id, course_name := new_name }
          else c),
        students_courses := db.students_courses.map (fun p =>
          (p.1, if p.2 = old_id then new_id else p.2)) }

/-- Some row or entity in the stored state still references course id `x`:
as a course primary key, in an enrollment join row, in a student
registered-courses list, or in an instructor assignment record. -/
def course_id_mentioned (db : DBState) (x : String) : Prop :=
  (∃ c ∈ db.courses, c.course_id = x) ∨
  (∃ p ∈ db.students_courses, p.2 = x) ∨
  (∃ r ∈ db.students, x ∈ r.registered_courses) ∨
  (∃ r ∈ db.instructors, x ∈ r.assigned_courses)

instance (db : DBState) (x : String) : Decidable (course_id_mentioned db x) := by
  unfold course_id_mentioned
  infer_instance

/-- Empty database, for concrete instances. -/
def db_empty : DBState := ⟨[], [], [], []⟩

/-- A student object whose key is absent from `db_empty`. -/
def s_obj : StudentObj := ⟨"S1", "Ann", 20, "ann@starschool.com", []⟩

/-- An instructor object, for concrete instances. -/
def i_obj : InstructorObj := ⟨"I1", "Bob", 40, "bob@starschool.com", []⟩

/-- Instructor `I1` assigned to course `C1`, which references it in its
`course_instructor` column: the concrete input on which
`delete_instructor_from_db` fails. -/
def db_c3 : DBState :=
  ⟨[], [⟨"I1", "Bob", 40, "bob@starschool.com", ["C1"]⟩],
   [⟨"C1", "Algebra", some "I1", []⟩], []⟩

/-- A state with a stale assignment record mentioning `C1` while no course
row `C1` exists (the denormalized columns are a best-effort cache and may
be stale). -/
def db_c2 : DBState :=
  ⟨[], [⟨"I1", "Bob", 40, "bob@starschool.com", ["C1"]⟩], [], []⟩

/-- A fully-linked state around course `C1`, input of the rename witness. -/
def db_c2w : DBState :=
  ⟨[⟨"S1", "Ann", 20, "ann@starschool.com", ["C1"]⟩],
   [⟨"I1", "Bob", 40, "bob@starschool.com", ["C1"]⟩],
   [⟨"C1", "Algebra", some "I1", ["S1"]⟩],
   [("S1", "C1")]⟩

/-- The state `db_c2w` after renaming course `C1` to `C2`. -/
def db_c2w_renamed : DBState :=
  ⟨[⟨"S1", "Ann", 20, "ann@starschool.com", ["C2"]⟩],
   [⟨"I1", "Bob", 40, "bob@starschool.com", ["C2"]⟩],
   [⟨"C2", "Algebra", some "I1", ["S1"]⟩],
   [("S1", "C2")]⟩

/-- One student `S1` and one course `C1`, not yet linked. -/
def reg0 : RegState := ⟨⟨[⟨"S1", []⟩], [], [⟨"C1", none, []⟩]⟩, []⟩

/-- The state after successfully registering `S1` in `C1` from `reg0`. -/
def reg1 : RegState := ⟨⟨[⟨"S1", ["C1"]⟩], [], [⟨"C1", none, ["S1"]⟩]⟩, [("S1", "C1")]⟩

/-- A snapshot with stale pre-existing links and persisted relation records
containing duplicates and orphaned references, for the rebuild witness. -/
def snap0 : Snapshot :=
  ⟨[⟨"S1", ["C9"]⟩, ⟨"S2", []⟩],
   [⟨"I1", ["C1", "C1"]⟩],
   [⟨"C1", some "I9", ["S1", "S1"]⟩]⟩

/-- Persisted assignment rows for the rebuild witness (with a duplicate and
an orphan). -/
def asg0 : List (String × String) := [("C1", "I1"), ("C7", "I1"), ("C1", "I1")]

/-- Persisted enrollment rows for the rebuild witness (with a duplicate and
an orphan). -/
def enr0 : List (String × String) := [("S1", "C1"), ("S1", "C1"), ("S2", "C7")]

/-! ### Helper lemmas -/

theorem mem_dropWhile_of_mem {α : Type} {p : α → Bool} {c : α} (hc : p c = false) :
    ∀ {l : List α}, c ∈ l → c ∈ l.dropWhile p := by
  intro l h
  induction l with
  | nil => cases h
  | cons a t ih =>
    rw [List.dropWhile_cons]
    by_cases hpa : p a = true
    · simp only [hpa, if_true]
      rcases List.mem_cons.mp h with rfl | ht
      · rw [hc] at hpa; cases hpa
      · exact ih ht
    · simp only [hpa, if_false]
      exact h

theorem py_strip_ne_nil {l : List Char} {c : Char} (hc : py_space c = false) (hm : c ∈ l) :
    (py_strip l).isEmpty = false := by
  have h1 : c ∈ l.dropWhile py_space := mem_dropWhile_of_mem hc hm
  have h2 : c ∈ (l.dropWhile py_space).reverse := List.mem_reverse.mpr h1
  have h3 : c ∈ (l.dropWhile py_space).reverse.dropWhile py_space :=
    mem_dropWhile_of_mem hc h2
  have h4 : c ∈ py_strip l := by
    unfold py_strip
    exact List.mem_reverse.mpr h3
  cases hres : py_strip l with
  | nil => rw [hres] at h4; cases h4
  | cons a t => rfl

theorem starts_strip_ne_nil {v : List Char} {c : Char} (hc : py_space c = false)
    (h : starts_with_char v c = true) : (py_strip v).isEmpty = false := by
  cases v with
  | nil => cases h
  | cons a t =>
    have ha : a = c := by simpa [starts_with_char] using h
    subst ha
    exact py_strip_ne_nil hc (List.mem_cons_self a t)

theorem ends_with_suffix_strip {email : List Char}
    (h : ends_with email email_suffix = true) : (py_strip email).isEmpty = false := by
  have hsuf : email_suffix <:+ email := List.isSuffixOf_iff_suffix.mp h
  obtain ⟨t, ht⟩ := hsuf
  have hm : 'm' ∈ email := by
    rw [← ht]
    exact List.mem_append_right t (by decide)
  exact py_strip_ne_nil (by decide) hm

/-! ### Claim theorems -/

/-- Claim C7: for all ID strings (of Python type str), the Student,
Instructor and Course ID setters fail iff the given ID is empty or lacks
the required prefix (S, I, C respectively); a non-empty ID bearing the
right prefix passes validation. -/
theorem id_checks_fail_iff (v : List Char) :
    (student_id_check v ≠ none ↔ (v = [] ∨ starts_with_char v 'S' = false)) ∧
    (instructor_id_check v ≠ none ↔ (v = [] ∨ starts_with_char v 'I' = false)) ∧
    (course_id_check v ≠ none ↔ (v = [] ∨ starts_with_char v 'C' = false)) := by
  refine ⟨?_, ?_, ?_⟩
  · cases v with
    | nil => decide
    | cons a t =>
      by_cases hs : starts_with_char (a :: t) 'S' = true
      · simp [student_id_check, starts_strip_ne_nil (by decide : py_space 'S' = false) hs, hs]
      · have hs' : starts_with_char (a :: t) 'S' = false := by simpa using hs
        simp only [student_id_check, hs']
        constructor
        · intro _; right; trivial
        · intro _; split <;> simp
  · cases v with
    | nil => decide
    | cons a t =>
      by_cases hs : starts_with_char (a :: t) 'I' = true
      · simp [instructor_id_check, starts_strip_ne_nil (by decide : py_space 'I' = false) hs, hs]
      · have hs' : starts_with_char (a :: t) 'I' = false := by simpa using hs
        simp only [instructor_id_check, hs']
        constructor
        · intro _; right; trivial
        · intro _; split <;> simp
  · cases v with
    | nil => decide
    | cons a t =>
      by_cases hs : starts_with_char (a :: t) 'C' = true
      · simp [course_id_check, starts_strip_ne_nil (by decide : py_space 'C' = false) hs, hs]
      · have hs' : starts_with_char (a :: t) 'C' = false := by simpa using hs
        simp only [course_id_check, hs']
        constructor
        · intro _; right; trivial
        · intro _; split <;> simp

/-- Witness for C7: the ID S1 passes the student ID validation. -/
theorem id_checks_fail_iff_witness : student_id_check "S1".toList = none := by
  by_contra hne
  exact (by decide : ¬("S1".toList = [] ∨ starts_with_char "S1".toList 'S' = false))
    ((id_checks_fail_iff "S1".toList).1.mp hne)

/-- Claim C6 (amended): for inputs of the expected Python types,
constructing a Person-derived entity succeeds iff the email ends with the
organizational suffix, the name contains a non-whitespace character
(Python `strip`-based non-emptiness, strictly stronger than plain
non-emptiness), and the age is non-negative; every failure is a
field-validation error. -/
theorem person_new_ok_iff (name email : List Char) (age : Int) :
    (is_ok (person_new name email age) = true ↔
      ((py_strip name).isEmpty = false ∧ ends_with email email_suffix = true ∧ 0 ≤ age)) ∧
    (∀ e, person_new name email age = Except.error e → ∃ m, e = PyErr.validation m) := by
  constructor
  · by_cases h1 : (py_strip name).isEmpty
    · simp [person_new, h1, is_ok]
    · have h1' : (py_strip name).isEmpty = false := by simpa using h1
      by_cases h3 : ends_with email email_suffix = true
      · have h2 : (py_strip email).isEmpty = false := ends_with_suffix_strip h3
        by_cases h4 : age < 0
        · simp only [person_new, h1', h2, h3, if_false, Bool.false_eq_true, not_true,
            if_pos h4, is_ok]
          constructor
          · intro h; cases h
          · rintro ⟨-, -, hge⟩; omega
        · have h4' : 0 ≤ age := by omega
          simp [person_new, h1', h2, h3, h4, is_ok, h4']
      · have h3' : ends_with email email_suffix = false := by simpa using h3
        by_cases h2 : (py_strip email).isEmpty
        · simp [person_new, h1', h2, is_ok, h3']
        · have h2' : (py_strip email).isEmpty = false := by simpa using h2
          simp [person_new, h1', h2', h3', is_ok]
  · intro e he
    unfold person_new at he
    split_ifs at he <;> cases he <;> exact ⟨_, rfl⟩

/-- Witness for C6: a valid student triple constructs successfully. -/
theorem person_new_ok_iff_witness :
    is_ok (person_new "Ann".toList "ann@starschool.com".toList 20) = true :=
  (person_new_ok_iff "Ann".toList "ann@starschool.com".toList 20).1.mpr (by decide)

/-- Counterexample to C6 as stated: the name consisting of a single blank
is a non-empty string, the email ends with the organizational suffix and
the age is non-negative, yet construction fails (the name setter rejects
whitespace-only names via `value.strip()`). -/
theorem person_new_whitespace_name_cex :
    (([' '] : List Char) ≠ [] ∧ ends_with "ann@starschool.com".toList email_suffix = true ∧
      (0 : Int) ≥ 0) ∧
    is_ok (person_new [' '] "ann@starschool.com".toList 0) = false := by
  decide

/-- Claim C8: the `course_instructor` setter fails iff the course already
has an instructor stored and the new value is a different instructor; on
failure the slot keeps its old occupant; re-setting to the same instructor,
or setting from none, succeeds and stores the given instructor. -/
theorem set_course_instructor_conflict_iff (cur value : Option Nat) :
    ((set_course_instructor cur value).2 ≠ none ↔
       ∃ a b, cur = some a ∧ value = some b ∧ a ≠ b) ∧
    ((set_course_instructor cur value).2 ≠ none → (set_course_instructor cur value).1 = cur) ∧
    (∀ b, value = some b → (cur = none ∨ cur = some b) →
       set_course_instructor cur value = (some b, none)) := by
  refine ⟨?_, ?_, ?_⟩
  · cases cur with
    | none => simp [set_course_instructor]
    | some a =>
      cases value with
      | none => simp [set_course_instructor]
      | some b =>
        by_cases hab : a = b
        · subst hab; simp [set_course_instructor]
        · simp only [set_course_instructor, beq_iff_eq, if_neg hab]
          simp only [ne_eq, Option.some.injEq]
          constructor
          · intro _
            exact ⟨a, b, rfl, rfl, hab⟩
          · rintro - h
            cases h
  · cases cur with
    | none => simp [set_course_instructor]
    | some a =>
      cases value with
      | none => simp [set_course_instructor]
      | some b =>
        by_cases hab : a = b
        · subst hab; simp [set_course_instructor]
        · simp [set_course_instructor, hab]
  · rintro b rfl h
    rcases h with rfl | rfl
    · rfl
    · simp [set_course_instructor]

/-- Witness for C8: re-setting the slot to the same instructor succeeds. -/
theorem set_course_instructor_conflict_iff_witness :
    set_course_instructor (some 1) (some 1) = (some 1, none) :=
  (set_course_instructor_conflict_iff (some 1) (some 1)).2.2 1 rfl (Or.inr rfl)

/-- Claim C10: assigning none to `course_instructor` always succeeds — even
when an instructor is currently assigned — and empties the slot; the
conflict check only applies when the new value is an actual instructor. -/
theorem set_course_instructor_none_ok (cur : Option Nat) :
    set_course_instructor cur none = (none, none) := by
  cases cur <;> rfl

/-- Witness for C10: clearing an occupied slot succeeds. -/
theorem set_course_instructor_none_ok_witness :
    set_course_instructor (some 5) none = (none, none) :=
  set_course_instructor_none_ok (some 5)

/-- Claim C9: each entity-level relationship mutator
(`Student.register_course`, `Instructor.assign_course`,
`Course.register_student`) fails with the duplicate-relation error and
leaves the collection unchanged when the related entity (by identity) is
already present, and appends it at the end otherwise. -/
theorem entity_mutators_dup_guard (l : List Nat) (x : Nat) :
    (x ∈ l →
       register_course l x = (l, some PyErr.duplicateRelation) ∧
       assign_course l x = (l, some PyErr.duplicateRelation) ∧
       register_student l x = (l, some PyErr.duplicateRelation)) ∧
    (x ∉ l →
       register_course l x = (l ++ [x], none) ∧
       assign_course l x = (l ++ [x], none) ∧
       register_student l x = (l ++ [x], none)) := by
  constructor
  · intro h
    exact ⟨by simp [register_course, h], by simp [assign_course, h],
           by simp [register_student, h]⟩
  · intro h
    exact ⟨by simp [register_course, h], by simp [assign_course, h],
           by simp [register_student, h]⟩

/-- Witness for C9: registering a course already present (by identity)
fails with the duplicate-relation error and leaves the list unchanged. -/
theorem entity_mutators_dup_guard_witness :
    register_course [7] 7 = ([7], some PyErr.duplicateRelation) :=
  ((entity_mutators_dup_guard [7] 7).1 (by decide)).1

/-- Claim C5 (amended): the update operations never fail — an absent
primary key simply matches zero rows and the call completes as a silent
no-op (no `NotFoundError` is raised); when the key is present the mutable
fields of the row are overwritten with the values of the object, all other rows and
tables are untouched. -/
theorem update_by_key_never_notfound (db : DBState) (s : StudentObj) (ins : InstructorObj) :
    (∃ db1, update_student_in_db db s = Except.ok db1 ∧
       db1.instructors = db.instructors ∧ db1.courses = db.courses ∧
       db1.students_courses = db.students_courses ∧
       (∀ r ∈ db.students, r.student_id ≠ s.student_id → r ∈ db1.students) ∧
       (∀ r ∈ db1.students, r.student_id = s.student_id →
          r.name = s.name ∧ r.age = s.age ∧ r.email = s.email ∧
          r.registered_courses = s.registered_course_ids) ∧
       ((∀ r ∈ db.students, r.student_id ≠ s.student_id) → db1 = db)) ∧
    (∃ db2, update_instructor_in_db db ins = Except.ok db2 ∧
       db2.students = db.students ∧ db2.courses = db.courses ∧
       db2.students_courses = db.students_courses ∧
       (∀ r ∈ db.instructors, r.instructor_id ≠ ins.instructor_id → r ∈ db2.instructors) ∧
       (∀ r ∈ db2.instructors, r.instructor_id = ins.instructor_id →
          r.name = ins.name ∧ r.age = ins.age ∧ r.email = ins.email ∧
          r.assigned_courses = ins.assigned_course_ids) ∧
       ((∀ r ∈ db.instructors, r.instructor_id ≠ ins.instructor_id) → db2 = db)) := by
  constructor
  · refine ⟨_, rfl, rfl, rfl, rfl, ?_, ?_, ?_⟩
    · intro r hr hne
      have hfix : (if r.student_id = s.student_id then
          { r with name := s.name, age := s.age, email := s.email,
                   registered_courses := s.registered_course_ids } else r) = r := by
        rw [if_neg hne]
      apply List.mem_map.mpr
      exact ⟨r, hr, hfix⟩
    · intro r hr heq
      obtain ⟨r0, hr0, rfl⟩ := List.mem_map.mp hr
      by_cases h0 : r0.student_id = s.student_id
      · simp [h0]
      · rw [if_neg h0] at heq ⊢
        exact absurd heq h0
    · intro h
      have hmap : db.students.map (fun r =>
          if r.student_id = s.student_id then
            { r with name := s.name, age := s.age, email := s.email,
                     registered_courses := s.registered_course_ids } else r) = db.students := by
        rw [List.map_congr_left (fun a ha => if_neg (h a ha))]
        exact List.map_id' db.students
      show { db with students := _ } = db
      rw [hmap]
  · refine ⟨_, rfl, rfl, rfl, rfl, ?_, ?_, ?_⟩
    · intro r hr hne
      have hfix : (if r.instructor_id = ins.instructor_id then
          { r with name := ins.name, age := ins.age, email := ins.email,
                   assigned_courses := ins.assigned_course_ids } else r) = r := by
        rw [if_neg hne]
      apply List.mem_map.mpr
      exact ⟨r, hr, hfix⟩
    · intro r hr heq
      obtain ⟨r0, hr0, rfl⟩ := List.mem_map.mp hr
      by_cases h0 : r0.instructor_id = ins.instructor_id
      · simp [h0]
      · rw [if_neg h0] at heq ⊢
        exact absurd heq h0
    · intro h
      have hmap : db.instructors.map (fun r =>
          if r.instructor_id = ins.instructor_id then
            { r with name := ins.name, age := ins.age, email := ins.email,
                     assigned_courses := ins.assigned_course_ids } else r) = db.instructors := by
        rw [List.map_congr_left (fun a ha => if_neg (h a ha))]
        exact List.map_id' db.instructors
      show { db with instructors := _ } = db
      rw [hmap]

/-- Witness for C5 (amended): updating a student whose key is absent from
the empty store completes without error. -/
theorem update_by_key_never_notfound_witness :
    ∃ db1, update_student_in_db db_empty s_obj = Except.ok db1 := by
  obtain ⟨⟨db1, hok, -⟩, -⟩ := update_by_key_never_notfound db_empty s_obj i_obj
  exact ⟨db1, hok⟩

/-- Counterexample to C5 as stated: student S1 is absent from the empty
store, yet `update_student_in_db` succeeds (no `NotFoundError`), leaving
the store unchanged. -/
theorem update_absent_key_no_error :
    (∀ r ∈ db_empty.students, r.student_id ≠ s_obj.student_id) ∧
    update_student_in_db db_empty s_obj = Except.ok db_empty := by
  constructor
  · intro r hr
    simp [db_empty] at hr
  · rfl

/-- Claim C3 evidence: on the concrete state `db_c3` (instructor I1
assigned to course C1, the course row referencing I1), the
gateway delete-instructor operation raises a FOREIGN KEY `IntegrityError` instead
of succeeding with cascaded cleanup, and the course row still references
the instructor — contradicting the claim, the spec and the docstring of
the method itself (which promises unassignment before deletion). -/
theorem delete_instructor_cascade_bug :
    delete_instructor_from_db db_c3 "I1" = Except.error PyErr.integrityError ∧
    (∃ c ∈ db_c3.courses, c.course_instructor = some "I1") := by
  constructor
  · rfl
  · exact ⟨⟨"C1", "Algebra", some "I1", []⟩, by simp [db_c3], rfl⟩

theorem clear_links_link_assignment (st : Snapshot) (row : String × String) :
    clear_links (link_assignment st row) = clear_links st := by
  unfold link_assignment
  split
  · unfold clear_links
    simp only [List.map_map]
    congr 1
    · apply List.map_congr_left
      intro i hi
      dsimp only [Function.comp]
      split <;> (try split) <;> rfl
    · apply List.map_congr_left
      intro c hc
      dsimp only [Function.comp]
      split <;> rfl
  · rfl

theorem clear_links_link_enrollment (st : Snapshot) (row : String × String) :
    clear_links (link_enrollment st row) = clear_links st := by
  unfold link_enrollment
  split
  · unfold clear_links
    simp only [List.map_map]
    congr 1
    · apply List.map_congr_left
      intro s hs
      dsimp only [Function.comp]
      split <;> (try split) <;> rfl
    · apply List.map_congr_left
      intro c hc
      dsimp only [Function.comp]
      split <;> (try split) <;> rfl
  · rfl

theorem clear_links_foldl_assign (rows : List (String × String)) (st : Snapshot) :
    clear_links (rows.foldl link_assignment st) = clear_links st := by
  induction rows generalizing st with
  | nil => rfl
  | cons r rs ih => rw [List.foldl_cons, ih, clear_links_link_assignment]

theorem clear_links_foldl_enroll (rows : List (String × String)) (st : Snapshot) :
    clear_links (rows.foldl link_enrollment st) = clear_links st := by
  induction rows generalizing st with
  | nil => rfl
  | cons r rs ih => rw [List.foldl_cons, ih, clear_links_link_enrollment]

theorem clear_links_idem (st : Snapshot) : clear_links (clear_links st) = clear_links st := by
  unfold clear_links
  simp only [List.map_map]
  congr 1

/-- Claim C1: the relationship rebuild is idempotent — rebuilding twice in
succession from the same persisted relation records yields exactly the same
relationship collections as rebuilding once (the clear step discards
whatever links the input carried, and linking never changes entity ids). -/
theorem rebuild_relationships_clean_idempotent (st : Snapshot)
    (assignments enrollments : List (String × String)) :
    rebuild_relationships_clean (rebuild_relationships_clean st assignments enrollments)
      assignments enrollments =
      rebuild_relationships_clean st assignments enrollments := by
  unfold rebuild_relationships_clean
  rw [clear_links_foldl_enroll, clear_links_foldl_assign, clear_links_idem]

/-- Witness for C1: idempotence at a concrete snapshot carrying stale
pre-existing links, duplicate relation rows and orphaned references. -/
theorem rebuild_relationships_clean_idempotent_witness :
    rebuild_relationships_clean (rebuild_relationships_clean snap0 asg0 enr0) asg0 enr0 =
      rebuild_relationships_clean snap0 asg0 enr0 :=
  rebuild_relationships_clean_idempotent snap0 asg0 enr0

/-- Claim C4: after a successful `register_student_in_course (s, c)`,
calling it again with the same pair fails with the duplicate-relation error
and returns the state unchanged (so the enrollment count of `c`, in the
join rows and the in-memory collections, is unchanged). -/
theorem register_student_in_course_dup (st : RegState) (sid cid : String) (st1 : RegState)
    (h : register_student_in_course st sid cid = (st1, none)) :
    register_student_in_course st1 sid cid = (st1, some PyErr.duplicateRelation) := by
  unfold register_student_in_course at h
  by_cases h1 : (∀ s ∈ st.snapshot.students, s.sid ≠ sid) ∨
      (∀ c ∈ st.snapshot.courses, c.cid ≠ cid)
  · rw [if_pos h1] at h
    have := congrArg Prod.snd h
    simp at this
  · by_cases h2 : (sid, cid) ∈ st.join
    · rw [if_neg h1, if_pos h2] at h
      have := congrArg Prod.snd h
      simp at this
    · rw [if_neg h1, if_neg h2] at h
      injection h with hfst hsnd
      subst hfst
      push_neg at h1
      obtain ⟨⟨s0, hs0, hsid⟩, ⟨c0, hc0, hcid⟩⟩ := h1
      have hA : ¬ ((∀ s ∈ (st.snapshot.students.map (fun s =>
            if s.sid = sid then { s with registered := s.registered ++ [cid] } else s)),
            s.sid ≠ sid) ∨
          (∀ c ∈ (st.snapshot.courses.map (fun c =>
            if c.cid = cid then { c with enrolled := c.enrolled ++ [sid] } else c)),
            c.cid ≠ cid)) := by
        push_neg
        constructor
        · exact ⟨_, List.mem_map_of_mem _ hs0, by simp [hsid]⟩
        · exact ⟨_, List.mem_map_of_mem _ hc0, by simp [hcid]⟩
      have hmem : (sid, cid) ∈ st.join ++ [(sid, cid)] :=
        List.mem_append_right _ (by simp)
      unfold register_student_in_course
      rw [if_neg hA, if_pos hmem]

/-- Witness for C4: registering S1 in C1 twice from the unlinked state —
the second call fails with the duplicate-relation error and leaves the
once-registered state untouched. -/
theorem register_student_in_course_dup_witness :
    register_student_in_course reg1 "S1" "C1" = (reg1, some PyErr.duplicateRelation) :=
  register_student_in_course_dup reg0 "S1" "C1" reg1 (by decide)

theorem replace_map_not_mem {old_id new_id : String} (h : old_id ≠ new_id) (l : List String) :
    old_id ∉ l.map (fun c => if c = old_id then new_id else c) := by
  intro hmem
  obtain ⟨c0, hc0, heq⟩ := List.mem_map.mp hmem
  by_cases hx : c0 = old_id
  · rw [if_pos hx] at heq
    exact h heq.symm
  · rw [if_neg hx] at heq
    exact hx heq

/-- Claim C2 (amended): `rename_course_id_in_db` fails with the
duplicate-key error when `new_id` already exists as a course primary key;
otherwise, provided `old_id ≠ new_id`, after it returns no row or entity
anywhere (course rows, join rows, student registered lists, instructor
assignment records) still references `old_id`. -/
theorem rename_course_id_spec (db : DBState) (old_id new_id new_name : String) :
    ((∃ c ∈ db.courses, c.course_id = new_id) →
       rename_course_id_in_db db old_id new_id new_name = Except.error PyErr.duplicateKey) ∧
    (old_id ≠ new_id → ∀ db1,
       rename_course_id_in_db db old_id new_id new_name = Except.ok db1 →
       ¬ course_id_mentioned db1 old_id) := by
  constructor
  · intro h
    unfold rename_course_id_in_db
    rw [if_pos h]
  · intro hne db1 hok
    unfold rename_course_id_in_db at hok
    split_ifs at hok with hdup
    rw [Except.ok.injEq] at hok
    subst hok
    intro hm
    unfold course_id_mentioned at hm
    rcases hm with ⟨c, hc, hcid⟩ | ⟨p, hp, hpid⟩ | ⟨r, hr, hrc⟩ | ⟨r, hr, hrc⟩
    · obtain ⟨c0, hc0, rfl⟩ := List.mem_map.mp hc
      by_cases hx : c0.course_id = old_id
      · simp only [if_pos hx] at hcid
        exact hne hcid.symm
      · simp only [if_neg hx] at hcid
        exact hx hcid
    · obtain ⟨p0, hp0, rfl⟩ := List.mem_map.mp hp
      by_cases hx : p0.2 = old_id
      · simp only [if_pos hx] at hpid
        exact hne hpid.symm
      · simp only [if_neg hx] at hpid
        exact hx hpid
    · obtain ⟨r0, hr0, rfl⟩ := List.mem_map.mp hr
      exact replace_map_not_mem hne r0.registered_courses hrc
    · obtain ⟨r0, hr0, rfl⟩ := List.mem_map.mp hr
      exact replace_map_not_mem hne r0.assigned_courses hrc

/-- Witness for C2 (amended): renaming C1 to C2 in the fully-linked state
leaves nothing referencing C1. -/
theorem rename_course_id_spec_witness :
    ¬ course_id_mentioned db_c2w_renamed "C1" :=
  (rename_course_id_spec db_c2w "C1" "C2" "Algebra").2 (by decide) db_c2w_renamed rfl

/-- Counterexample to C2 as stated: with no course row named C1 but a stale
assignment record mentioning C1, renaming C1 to C1 itself hits no
duplicate-key error and returns, yet the record of the instructor still
references the old id. -/
theorem rename_same_id_cex :
    rename_course_id_in_db db_c2 "C1" "C1" "Algebra" = Except.ok db_c2 ∧
    course_id_mentioned db_c2 "C1" :=
  ⟨rfl, by decide⟩

end School
